import Mathlib

/-!
Verification of the gclient authenticated HTTP client layer.

This file gives a shallow embedding of the repository's source:
* `src/gcode_utils/utils.py` — the `deep_merge` helper;
* `src/gclient/gclient/client.py` — `SSLCiphers.__init__`, the `Auth`
  bearer-token controller (`auth`, `is_token_expired`, `get_auth`), and the
  `Client` request orchestrator (`__setup_session`, `request`).

Python header/payload dictionaries are modelled as association lists of
`String × Val` where `Val` mirrors the JSON-like values that occur (None,
strings, integers, nested dictionaries).  Python's truthiness tests
(`if not dict`, `if not self.token`, ...) are modelled exactly: `None`,
the empty string, the empty dict and the integer 0 are falsy.  Network
effects are modelled as explicit traces: `Auth.auth` reports whether the
token-exchange POST was issued, and `Client.request` returns the list of
outbound `NetAction`s in the order they are performed, with the response
of the token exchange supplied as an oracle (`AuthResponse`).  Exceptions
are modelled with `Except`.
-/

/-- Python-style values stored in header/payload dictionaries: `None`,
strings, integers, or nested dictionaries (ordered association lists). -/
inductive Val where
  | vNone : Val
  | vStr : String → Val
  | vInt : Int → Val
  | vDict : List (String × Val) → Val

/-- A Python `dict` is modelled as an insertion-ordered association list. -/
abbrev Dict := List (String × Val)

/-- `d[key]` lookup: value of the first entry whose key matches. -/
def dictGet : Dict → String → Option Val
  | [], _ => none
  | (k, v) :: rest, key => if k = key then some v else dictGet rest key

/-- `d[key] = val` update, with Python `dict` semantics: an existing key
keeps its position, a new key is appended at the end. -/
def dictSet : Dict → String → Val → Dict
  | [], key, val => [(key, val)]
  | (k, v) :: rest, key, val =>
    if k = key then (k, val) :: rest else (k, v) :: dictSet rest key val

/-- The keys of a dictionary, in order. -/
def dictKeys (d : Dict) : List String := d.map Prod.fst

mutual

/-- The `for key, value in dict2.items()` loop of `deep_merge`
(utils.py lines 17-21): fold the entries of the second dictionary into
`merged`, recursing when both old and new value are dictionaries. -/
def mergeStep : Dict → Dict → Dict
  | merged, [] => merged
  | merged, (key, value) :: rest =>
    mergeStep (dictSet merged key (combineVals (dictGet merged key) value)) rest
termination_by merged items => (sizeOf items, 0)

/-- `deep_merge` restricted to two actual dictionaries (the shape of the
recursive call at utils.py line 19; the falsiness checks of lines 9-14
are re-run at every level). -/
def deep_mergeD : Dict → Dict → Option Dict
  | dict1, dict2 =>
    if dict1.isEmpty && dict2.isEmpty then none
    else if dict1.isEmpty then some dict2
    else if dict2.isEmpty then some dict1
    else some (mergeStep dict1 dict2)
termination_by dict1 dict2 => (sizeOf dict2, 1)

/-- The merge of one colliding entry (utils.py lines 18-21): if the value
already in `merged` and the incoming value are both dictionaries they are
merged recursively (a `None` result of the recursive call is stored as the
value, exactly as `merged[key] = deep_merge(...)` does), otherwise the
incoming value wins. -/
def combineVals : Option Val → Val → Val
  | some (Val.vDict m), Val.vDict v =>
    (match deep_mergeD m v with
     | none => Val.vNone
     | some d => Val.vDict d)
  | _, value => value
termination_by cur value => (sizeOf value, 2)

end

/-- `gcode_utils.utils.deep_merge` (utils.py lines 7-23).  The arguments
are `Option Dict` because Python callers pass `None` where a dictionary is
absent; `none` and `some []` are both falsy. -/
def deep_merge (dict1 dict2 : Option Dict) : Option Dict :=
  match dict1, dict2 with
  | none, none => none
  | none, some d2 => if d2.isEmpty then none else some d2
  | some d1, none => if d1.isEmpty then none else some d1
  | some d1, some d2 => deep_mergeD d1 d2

/-- Truthiness of an optional dictionary argument (`if not dict1`). -/
def pyFalsyD : Option Dict → Bool
  | none => true
  | some d => d.isEmpty

/-- Lookup through an optional dictionary. -/
def lookupO : Option Dict → String → Option Val
  | none, _ => none
  | some d, key => dictGet d key

/-- Wrap the result of a recursive `deep_merge` back into a stored value,
as the assignment `merged[key] = deep_merge(merged[key], value)` does. -/
def vDictOrNone : Option Dict → Val
  | none => Val.vNone
  | some d => Val.vDict d

/-- Python falsiness of an optional string (`None` and `""` are falsy). -/
def strFalsy : Option String → Bool
  | none => true
  | some s => s.isEmpty

/-- Python falsiness of an optional integer (`None` and `0` are falsy;
used for the `not self.expiry` test). -/
def intFalsy : Option Int → Bool
  | none => true
  | some n => n == 0

/-- Python string interpolation of an optional string: `f"{x}"` renders
`None` as the four-character string `"None"`. -/
def pyStr : Option String → String
  | none => "None"
  | some s => s

/-- The `Auth` controller (client.py lines 63-112): token-exchange
configuration (`base_api`, `endpoint`, `headers`, `payload`) plus the
mutable token state (`token`, `expiry`, `token_type`, `country`), all
`None` until a successful exchange.  The Python class annotates `expiry`
as `str | None` but stores `time.time() + expires_in`; it is modelled as
an integer timestamp. -/
structure Auth where
  base_api : Option String
  endpoint : Option String
  headers : Option Dict
  payload : Option Dict
  token : Option String := none
  expiry : Option Int := none
  token_type : Option String := none
  country : Option String := none

/-- The decoded JSON body returned by the token-exchange POST
(`response` at client.py lines 90-102): whether an `"error"` key is
present, and the four fields read on success, each `none` when the key is
missing from the response. -/
structure AuthResponse where
  hasError : Bool
  access_token : Option String
  expires_in : Option Int
  token_type : Option String
  country : Option String

/-- The exceptions `Auth.auth` can raise: the two configuration checks,
the `"error"`-key check, and a Python `KeyError` for a missing response
field. -/
inductive AuthErr where
  | missingBaseApi : AuthErr
  | missingEndpoint : AuthErr
  | errorKey : AuthErr
  | keyErr : String → AuthErr

/-- `Auth.auth` (client.py lines 79-104).  Returns the controller state
after the call, the outcome, and whether the exchange POST was issued.
The response body is supplied as an oracle.  Assignments are sequential
exactly as in the source: `token` is written before `expires_in` is read,
`expiry` before `token_type` is read, and `token_type` before `country`
is read, so a `KeyError` on a later field leaves the earlier assignments
in place. -/
def Auth.auth (a : Auth) (now : Int) (resp : AuthResponse) :
    Auth × Except AuthErr Unit × Bool :=
  if strFalsy a.base_api then (a, Except.error AuthErr.missingBaseApi, false)
  else if strFalsy a.endpoint then (a, Except.error AuthErr.missingEndpoint, false)
  else if resp.hasError then (a, Except.error AuthErr.errorKey, true)
  else
    match resp.access_token with
    | none => (a, Except.error (AuthErr.keyErr "access_token"), true)
    | some tok =>
      let a1 := { a with token := some tok }
      match resp.expires_in with
      | none => (a1, Except.error (AuthErr.keyErr "expires_in"), true)
      | some ttl =>
        let a2 := { a1 with expiry := some (now + ttl) }
        match resp.token_type with
        | none => (a2, Except.error (AuthErr.keyErr "token_type"), true)
        | some tt =>
          let a3 := { a2 with token_type := some tt }
          match resp.country with
          | none => (a3, Except.error (AuthErr.keyErr "country"), true)
          | some ctry => ({ a3 with country := some ctry }, Except.ok (), true)

/-- `Auth.is_token_expired` (client.py lines 106-109): `True` when
`token` or `expiry` is falsy, else `not self.expiry > time.time()`. -/
def Auth.is_token_expired (a : Auth) (now : Int) : Bool :=
  if strFalsy a.token || intFalsy a.expiry then true
  else
    match a.expiry with
    | none => true
    | some e => !(decide (e > now))

/-- `Auth.get_auth` (client.py lines 111-112): the f-string
`f"{self.token_type} {self.token}"`. -/
def Auth.get_auth (a : Auth) : String :=
  pyStr a.token_type ++ " " ++ pyStr a.token

/-- The `cipher_list` argument of `SSLCiphers.__init__`: absent (`None`),
a string, or a non-string value with the given Python truthiness. -/
inductive CipherArg where
  | noneArg : CipherArg
  | strArg : String → CipherArg
  | otherArg : Bool → CipherArg

/-- Python truthiness of the `cipher_list` argument. -/
def CipherArg.isTruthy : CipherArg → Bool
  | CipherArg.noneArg => false
  | CipherArg.strArg s => !s.isEmpty
  | CipherArg.otherArg b => b

/-- Outcome of `SSLCiphers.__init__`: a TLS context built over the final
cipher string (hostname checking disabled, as in the source), or a raised
`TypeError` / `ValueError`.  The failure outcomes carry no context: the
constructor raises before `ssl.create_default_context()` runs. -/
inductive InitResult where
  | builtContext : String → InitResult
  | typeErr : InitResult
  | valueErr : InitResult

/-- Whether `sub` occurs at the start of `hay`. -/
def beginsWith : List Char → List Char → Bool
  | _, [] => true
  | [], _ :: _ => false
  | c :: cs, d :: ds => c == d && beginsWith cs ds

/-- Whether `sub` occurs contiguously anywhere in `hay`. -/
def containsSeq : List Char → List Char → Bool
  | [], sub => sub.isEmpty
  | c :: cs, sub => beginsWith (c :: cs) sub || containsSeq cs sub

/-- Python's `sub in s` substring test. -/
def strContains (s sub : String) : Bool := containsSeq s.data sub.data

/-- The tail of `SSLCiphers.__init__` (client.py lines 30-51): the
security-level range check, the defaulting of a falsy cipher list to
`"DEFAULT"`, the appending of the `@SECLEVEL` directive, and the
construction of the TLS context.  (`security_level` is modelled as an
integer, so the `isinstance(int)` check is vacuous.) -/
def sslCiphersBuild (cipher_list : CipherArg) (security_level : Int) : InitResult :=
  if security_level < 0 ∨ 5 < security_level then InitResult.valueErr
  else
    let base :=
      match cipher_list with
      | CipherArg.strArg s => if s.isEmpty then "DEFAULT" else s
      | _ => "DEFAULT"
    InitResult.builtContext (base ++ ":@SECLEVEL=" ++ toString security_level)

/-- `SSLCiphers.__init__` (client.py lines 14-52).  Note that the
`isinstance(cipher_list, str)` and `"@SECLEVEL" in cipher_list` checks
run only when `cipher_list` is truthy. -/
def sslCiphers_init (cipher_list : CipherArg) (security_level : Int) : InitResult :=
  if cipher_list.isTruthy then
    match cipher_list with
    | CipherArg.strArg s =>
      if strContains s "@SECLEVEL" then InitResult.valueErr
      else sslCiphersBuild cipher_list security_level
    | _ => InitResult.typeErr
  else sslCiphersBuild cipher_list security_level

/-- The `Retry` object mounted on the session (client.py lines 138-142).
The backoff factor 0.2 is modelled as the rational 1/5. -/
structure Retry where
  total : Nat
  backoff_factor : Rat
  status_forcelist : List Nat

/-- The observable configuration `Client.__setup_session` installs on the
session (client.py lines 130-152). -/
structure SessionConfig where
  adapter : InitResult
  max_retries : Retry
  headers : Dict
  proxies : Option (String × String)

/-- `Client.__setup_session` (client.py lines 130-152): mounts an
`SSLCiphers` adapter with `security_level=2` and the fixed retry policy,
installs the optional proxy for both `http` and `https`, and applies the
default headers. -/
def Client.setup_session (default_headers : Dict) (proxy : Option String) : SessionConfig :=
  { adapter := sslCiphers_init CipherArg.noneArg 2
    max_retries :=
      { total := 15
        backoff_factor := 0.2
        status_forcelist := [429, 500, 502, 503, 504] }
    headers := default_headers
    proxies := proxy.map (fun p => (p, p)) }

/-- An outbound network call made during `Client.request`: the
token-exchange POST issued by `Auth.auth`, or the dispatch of the request
itself through `session.post` / `session.get`. -/
inductive NetAction where
  | tokenExchange : NetAction
  | dispatch : String → String → Option Dict → Option Dict → Option Dict → NetAction

/-- The exceptions `Client.request` can raise: the two configuration
checks, or an exception propagating out of `Auth.auth`. -/
inductive ReqErr where
  | missingBaseApi : ReqErr
  | missingEndpoint : ReqErr
  | authFailed : AuthErr → ReqErr

/-- The value `Client.request` returns when it does not raise: the
`Response` of the dispatched call (carrying what was sent), or the bare
`None` that the final `return None` line produces for unsupported
methods. -/
inductive ReqResult where
  | response : String → String → Option Dict → Option Dict → Option Dict → ReqResult
  | noneResult : ReqResult

/-- The `Client` (client.py lines 115-128): base API plus the optional
auth controller.  The session configuration is modelled separately by
`Client.setup_session`. -/
structure Client where
  base_api : Option String
  auth : Option Auth

/-- The method dispatch at the end of `Client.request` (client.py lines
172-180): `"post"` and `"get"` issue the call and return its response,
anything else returns `None` without any outbound call. -/
def Client.dispatchCall (c : Client) (method url : String)
    (headers payload params : Option Dict) (acts : List NetAction) :
    Client × List NetAction × Except ReqErr ReqResult :=
  if method = "post" then
    (c, acts ++ [NetAction.dispatch method url headers payload params],
     Except.ok (ReqResult.response method url headers payload params))
  else if method = "get" then
    (c, acts ++ [NetAction.dispatch method url headers payload params],
     Except.ok (ReqResult.response method url headers payload params))
  else (c, acts, Except.ok ReqResult.noneResult)

/-- `Client.request` (client.py lines 154-180).  Returns the client state
after the call (the attached controller may have been mutated by the
refresh), the ordered list of outbound network calls, and the outcome.
`now` and `resp` are the oracle for `time.time()` and for the body of the
token-exchange response. -/
def Client.request (c : Client) (method endpoint : String)
    (headers payload params : Option Dict) (now : Int) (resp : AuthResponse) :
    Client × List NetAction × Except ReqErr ReqResult :=
  if strFalsy c.base_api then (c, [], Except.error ReqErr.missingBaseApi)
  else if endpoint.isEmpty then (c, [], Except.error ReqErr.missingEndpoint)
  else
    let url := pyStr c.base_api ++ endpoint
    match c.auth with
    | none => Client.dispatchCall c method url headers payload params []
    | some a =>
      if a.is_token_expired now then
        match Auth.auth a now resp with
        | (a1, Except.error e, posted) =>
          ({ c with auth := some a1 },
           if posted then [NetAction.tokenExchange] else [],
           Except.error (ReqErr.authFailed e))
        | (a1, Except.ok _, posted) =>
          let merged := deep_merge (some [("Authorization", Val.vStr a1.get_auth)]) headers
          Client.dispatchCall { c with auth := some a1 } method url merged payload params
            (if posted then [NetAction.tokenExchange] else [])
      else
        let merged := deep_merge (some [("Authorization", Val.vStr a.get_auth)]) headers
        Client.dispatchCall c method url merged payload params []

/-! ## Lemmas about dictionary lookup and the merge loop -/

theorem dictGet_dictSet (d : Dict) (k key : String) (v : Val) :
    dictGet (dictSet d k v) key = if k = key then some v else dictGet d key := by
  induction d with
  | nil => simp [dictSet, dictGet]
  | cons hd tl ih =>
    obtain ⟨k2, v2⟩ := hd
    by_cases h1 : k2 = k
    · subst h1
      by_cases h2 : k2 = key <;> simp [dictSet, dictGet, h2]
    · by_cases h2 : k2 = key
      · subst h2
        have h1' : k ≠ k2 := fun h => h1 h.symm
        simp [dictSet, dictGet, h1, h1']
      · simp [dictSet, dictGet, h1, h2, ih]

theorem dictGet_eq_none (d : Dict) (key : String) (h : key ∉ dictKeys d) :
    dictGet d key = none := by
  induction d with
  | nil => simp [dictGet]
  | cons hd tl ih =>
    obtain ⟨k2, v2⟩ := hd
    rw [dictKeys, List.map_cons] at h
    simp only [List.mem_cons, not_or] at h
    have h2 : k2 ≠ key := fun he => h.1 he.symm
    simp only [dictGet, h2, if_false]
    exact ih (by rw [dictKeys]; exact h.2)

theorem combineVals_eq (cur : Option Val) (v : Val) :
    combineVals cur v =
      match cur, v with
      | some (Val.vDict m), Val.vDict vd => vDictOrNone (deep_mergeD m vd)
      | _, _ => v := by
  cases cur with
  | none => cases v <;> simp [combineVals]
  | some c =>
    cases c <;> cases v <;> simp [combineVals, vDictOrNone]

theorem mergeStep_dictGet (items : Dict) (merged : Dict) (key : String)
    (h : (dictKeys items).Nodup) :
    dictGet (mergeStep merged items) key =
      match dictGet items key with
      | none => dictGet merged key
      | some v => some (combineVals (dictGet merged key) v) := by
  induction items generalizing merged with
  | nil => simp [mergeStep, dictGet]
  | cons hd tl ih =>
    obtain ⟨k2, v2⟩ := hd
    rw [dictKeys, List.map_cons] at h
    rw [List.nodup_cons] at h
    have hk2 : k2 ∉ dictKeys tl := by rw [dictKeys]; exact h.1
    have htl : (dictKeys tl).Nodup := by rw [dictKeys]; exact h.2
    rw [mergeStep, ih _ htl]
    by_cases hkey : k2 = key
    · subst hkey
      rw [dictGet_eq_none tl k2 hk2]
      simp [dictGet, dictGet_dictSet]
    · have hkey' : k2 ≠ key := hkey
      simp [dictGet, hkey', dictGet_dictSet]

theorem deep_merge_lookup_some (o1 : Option Dict) (d2 : Dict) (key : String)
    (h : (dictKeys d2).Nodup) :
    lookupO (deep_merge o1 (some d2)) key =
      match lookupO o1 key, dictGet d2 key with
      | _, none => lookupO o1 key
      | some (Val.vDict m), some (Val.vDict v) => some (vDictOrNone (deep_mergeD m v))
      | _, some v => some v := by
  cases o1 with
  | none =>
    cases d2 with
    | nil => simp [deep_merge, lookupO, dictGet]
    | cons hd tl =>
      simp only [deep_merge, List.isEmpty_cons, if_false, Bool.false_eq_true, ite_false,
        lookupO]
      cases hv : dictGet (hd :: tl) key <;> simp
  | some d1 =>
    cases d1 with
    | nil =>
      cases d2 with
      | nil => simp [deep_merge, deep_mergeD, lookupO, dictGet]
      | cons hd tl =>
        have hdm : deep_merge (some ([] : Dict)) (some (hd :: tl)) = some (hd :: tl) := by
          simp [deep_merge, deep_mergeD]
        rw [hdm]
        simp only [lookupO]
        cases hv : dictGet (hd :: tl) key with
        | none => simp [dictGet]
        | some v => simp [dictGet]
    | cons h1 t1 =>
      cases d2 with
      | nil =>
        rw [deep_merge, deep_mergeD]
        simp only [List.isEmpty_nil, List.isEmpty_cons, Bool.and_true, Bool.false_eq_true,
          ite_false, ite_true, lookupO, dictGet]
      | cons h2 t2 =>
        rw [deep_merge, deep_mergeD]
        simp only [List.isEmpty_cons, Bool.and_self, Bool.false_eq_true, ite_false, lookupO]
        rw [mergeStep_dictGet _ _ _ h]
        cases hv : dictGet (h2 :: t2) key with
        | none => simp
        | some v =>
          cases hc : dictGet (h1 :: t1) key with
          | none => cases v <;> simp [combineVals]
          | some c => cases c <;> cases v <;> simp [combineVals, vDictOrNone]

/-! ## C6, C7, C10: the deep-merge contract -/

/-- C6: `deep_merge` is a deep, right-biased recursive merge.  For each
key: a key absent from the right operand keeps the left operand's value
(and a key absent from both is absent from the result); a key present in
both with two nested dictionaries as values is merged recursively
(`deep_mergeD`, with a `None` recursive result stored as the value);
otherwise the right operand's value wins.  In particular merging
`{"a": {"x": 1, "y": 2}}` with `{"a": {"y": 3, "z": 4}}` yields
`{"a": {"x": 1, "y": 3, "z": 4}}`. -/
theorem C6_deep_merge_characterization :
    (deep_merge (some [("a", Val.vDict [("x", Val.vInt 1), ("y", Val.vInt 2)])])
        (some [("a", Val.vDict [("y", Val.vInt 3), ("z", Val.vInt 4)])])
      = some [("a", Val.vDict [("x", Val.vInt 1), ("y", Val.vInt 3), ("z", Val.vInt 4)])])
    ∧ (∀ (o1 : Option Dict) (key : String), lookupO (deep_merge o1 none) key = lookupO o1 key)
    ∧ (∀ (o1 : Option Dict) (d2 : Dict) (key : String), (dictKeys d2).Nodup →
        lookupO (deep_merge o1 (some d2)) key =
          match lookupO o1 key, dictGet d2 key with
          | _, none => lookupO o1 key
          | some (Val.vDict m), some (Val.vDict v) => some (vDictOrNone (deep_mergeD m v))
          | _, some v => some v) := by
  refine ⟨?_, ?_, ?_⟩
  · simp [deep_merge, deep_mergeD, mergeStep, combineVals, dictGet, dictSet]
  · intro o1 key
    cases o1 with
    | none => rfl
    | some d1 => cases d1 <;> simp [deep_merge, lookupO, dictGet]
  · intro o1 d2 key h
    exact deep_merge_lookup_some o1 d2 key h

theorem C6_witness :
    lookupO (deep_merge (some [("a", Val.vDict [("x", Val.vInt 1), ("y", Val.vInt 2)])])
        (some [("a", Val.vDict [("y", Val.vInt 3), ("z", Val.vInt 4)])])) "a" =
      match lookupO (some [("a", Val.vDict [("x", Val.vInt 1), ("y", Val.vInt 2)])]) "a",
          dictGet [("a", Val.vDict [("y", Val.vInt 3), ("z", Val.vInt 4)])] "a" with
      | _, none => lookupO (some [("a", Val.vDict [("x", Val.vInt 1), ("y", Val.vInt 2)])]) "a"
      | some (Val.vDict m), some (Val.vDict v) => some (vDictOrNone (deep_mergeD m v))
      | _, some v => some v :=
  C6_deep_merge_characterization.2.2
    (some [("a", Val.vDict [("x", Val.vInt 1), ("y", Val.vInt 2)])])
    [("a", Val.vDict [("y", Val.vInt 3), ("z", Val.vInt 4)])] "a" (by decide)

/-- C7: merging a non-empty mapping with an empty (`{}`) or absent
(`None`) mapping, on either side, returns the non-empty mapping
unchanged: the empty/absent mapping is a two-sided identity on non-empty
mappings. -/
theorem C7_empty_identity : ∀ (m : Dict), m ≠ [] →
    deep_merge (some m) none = some m ∧ deep_merge (some m) (some []) = some m ∧
    deep_merge none (some m) = some m ∧ deep_merge (some []) (some m) = some m := by
  intro m hm
  cases m with
  | nil => exact absurd rfl hm
  | cons hd tl =>
    refine ⟨?_, ?_, ?_, ?_⟩ <;> simp [deep_merge, deep_mergeD]

theorem C7_witness :
    deep_merge (some [("a", Val.vInt 1)]) none = some [("a", Val.vInt 1)] ∧
    deep_merge (some [("a", Val.vInt 1)]) (some []) = some [("a", Val.vInt 1)] ∧
    deep_merge none (some [("a", Val.vInt 1)]) = some [("a", Val.vInt 1)] ∧
    deep_merge (some []) (some [("a", Val.vInt 1)]) = some [("a", Val.vInt 1)] :=
  C7_empty_identity [("a", Val.vInt 1)] (List.cons_ne_nil _ _)

/-- C10: when both arguments of `deep_merge` are falsy (absent `None` or
the empty mapping `{}`), the result is `None` — the absent value, not an
empty mapping. -/
theorem C10_both_empty_gives_none : ∀ (o1 o2 : Option Dict),
    pyFalsyD o1 = true → pyFalsyD o2 = true → deep_merge o1 o2 = none := by
  intro o1 o2 h1 h2
  cases o1 with
  | none =>
    cases o2 with
    | none => rfl
    | some d2 =>
      cases d2 with
      | nil => rfl
      | cons hd tl => simp [pyFalsyD] at h2
  | some d1 =>
    cases d1 with
    | cons hd tl => simp [pyFalsyD] at h1
    | nil =>
      cases o2 with
      | none => rfl
      | some d2 =>
        cases d2 with
        | nil => simp [deep_merge, deep_mergeD]
        | cons hd tl => simp [pyFalsyD] at h2

theorem C10_witness : deep_merge (some []) none = none :=
  C10_both_empty_gives_none (some []) none rfl rfl

/-! ## C4: token-expiry characterization -/

/-- C4 (amended): `is_token_expired` is true exactly when the token is
absent **or empty**, or the expiry is absent **or zero** (Python
truthiness of `not self.token` / `not self.expiry`), or the expiry is not
strictly greater than the current time; in particular an expiry equal to
the current time counts as expired (the validity boundary is
exclusive). -/
theorem C4_token_expiry_characterization :
    (∀ (a : Auth) (now : Int),
      a.is_token_expired now = true ↔
        (a.token = none ∨ a.token = some "" ∨ a.expiry = none ∨ a.expiry = some 0 ∨
         ∃ e, a.expiry = some e ∧ e ≤ now))
    ∧ (∀ (a : Auth) (now : Int), a.expiry = some now → a.is_token_expired now = true) := by
  constructor
  · rintro ⟨ba, ep, hd, pl, tok, exp, tt, ct⟩ now
    cases tok with
    | none => simp [Auth.is_token_expired, strFalsy]
    | some s =>
      cases hse : s.isEmpty with
      | true =>
        have hs : s = "" := (String.isEmpty_iff s).mp hse
        subst hs
        simp [Auth.is_token_expired, strFalsy, hse]
      | false =>
        have hs : s ≠ "" := fun h => by rw [h] at hse; exact absurd hse (by decide)
        cases exp with
        | none => simp [Auth.is_token_expired, strFalsy, intFalsy, hse]
        | some e =>
          cases he : e == 0 with
          | true =>
            have he0 : e = 0 := by simpa using he
            subst he0
            simp [Auth.is_token_expired, strFalsy, intFalsy, hse]
          | false =>
            have he0 : e ≠ 0 := by simpa using he
            simp only [Auth.is_token_expired, strFalsy, intFalsy, hse, he,
              Bool.or_false, Bool.false_eq_true, if_false, Option.some.injEq,
              Bool.not_eq_true', decide_eq_false_iff_not, not_lt]
            constructor
            · intro hle
              exact Or.inr (Or.inr (Or.inr (Or.inr ⟨e, rfl, hle⟩)))
            · rintro (h | h | h | h | ⟨e2, he2, hle⟩)
              · exact absurd h (by simp)
              · exact absurd h (by simpa using hs)
              · exact absurd h (by simp)
              · exact absurd h (by simpa using he0)
              · exact (Option.some.injEq e e2 ▸ he2 : e = e2) ▸ hle
  · rintro ⟨ba, ep, hd, pl, tok, exp, tt, ct⟩ now hee
    cases tok with
    | none => simp [Auth.is_token_expired, strFalsy]
    | some s =>
      cases hse : s.isEmpty with
      | true => simp [Auth.is_token_expired, strFalsy, hse]
      | false =>
        have hee2 : exp = some now := hee
        subst hee2
        cases hn : now == 0 with
        | true => simp [Auth.is_token_expired, strFalsy, intFalsy, hse, hn]
        | false =>
          simp [Auth.is_token_expired, strFalsy, intFalsy, hse, hn]

/-- C4 as literally stated is false on the code: an `Auth` whose token is
the **present but empty** string `""` is reported expired even though the
token is not absent, the expiry is present, and the expiry (100) is
strictly greater than the current time (0). -/
theorem C4_counterexample_empty_token :
    (Auth.mk (some "https://auth.example.com") (some "/token") none none
        (some "") (some 100) (some "Bearer") (some "US")).is_token_expired 0 = true
    ∧ (some "" : Option String) ≠ none
    ∧ (some 100 : Option Int) ≠ none
    ∧ ¬((100 : Int) ≤ 0) := by
  refine ⟨rfl, ?_, ?_, by decide⟩ <;> simp

theorem C4_witness :
    (Auth.mk (some "https://auth.example.com") (some "/token") none none
        (some "tok") (some 50) (some "Bearer") (some "US")).is_token_expired 50 = true :=
  C4_token_expiry_characterization.2
    (Auth.mk (some "https://auth.example.com") (some "/token") none none
      (some "tok") (some 50) (some "Bearer") (some "US")) 50 rfl

/-! ## C2: state preservation of a failed token exchange -/

/-- C2 (amended): a token exchange that fails before any state field is
assigned — missing `base_api`, missing `endpoint`, an `"error"` key in
the response, or a response missing `access_token` — leaves every field
of the state identical.  But the assignments are sequential, so a
malformed success response that contains `access_token` while missing a
later key mutates the fields already assigned: missing `expires_in`
leaves `token` updated; missing `token_type` leaves `token` and `expiry`
updated; missing `country` leaves `token`, `expiry` and `token_type`
updated. -/
theorem C2_failed_auth_state_preservation :
    (∀ (a : Auth) (now : Int) (resp : AuthResponse),
      (strFalsy a.base_api = true ∨ strFalsy a.endpoint = true ∨ resp.hasError = true ∨
       resp.access_token = none) →
      (Auth.auth a now resp).1 = a)
    ∧ (∀ (a : Auth) (now : Int) (resp : AuthResponse) (tok : String),
        strFalsy a.base_api = false → strFalsy a.endpoint = false →
        resp.hasError = false → resp.access_token = some tok → resp.expires_in = none →
        Auth.auth a now resp =
          ({ a with token := some tok }, Except.error (AuthErr.keyErr "expires_in"), true))
    ∧ (∀ (a : Auth) (now : Int) (resp : AuthResponse) (tok : String) (ttl : Int),
        strFalsy a.base_api = false → strFalsy a.endpoint = false →
        resp.hasError = false → resp.access_token = some tok → resp.expires_in = some ttl →
        resp.token_type = none →
        Auth.auth a now resp =
          ({ a with token := some tok, expiry := some (now + ttl) },
           Except.error (AuthErr.keyErr "token_type"), true))
    ∧ (∀ (a : Auth) (now : Int) (resp : AuthResponse) (tok : String) (ttl : Int) (tty : String),
        strFalsy a.base_api = false → strFalsy a.endpoint = false →
        resp.hasError = false → resp.access_token = some tok → resp.expires_in = some ttl →
        resp.token_type = some tty → resp.country = none →
        Auth.auth a now resp =
          ({ a with token := some tok, expiry := some (now + ttl), token_type := some tty },
           Except.error (AuthErr.keyErr "country"), true)) := by
  refine ⟨?_, ?_, ?_, ?_⟩
  · intro a now resp h
    rcases h with h | h | h | h
    · simp [Auth.auth, h]
    · cases hb : strFalsy a.base_api <;> simp [Auth.auth, hb, h]
    · cases hb : strFalsy a.base_api <;> cases hep : strFalsy a.endpoint <;>
        simp [Auth.auth, hb, hep, h]
    · cases hb : strFalsy a.base_api <;> cases hep : strFalsy a.endpoint <;>
        cases her : resp.hasError <;> simp [Auth.auth, hb, hep, her, h]
  · intro a now resp tok hb hep her hat hei
    simp [Auth.auth, hb, hep, her, hat, hei]
  · intro a now resp tok ttl hb hep her hat hei htt
    simp [Auth.auth, hb, hep, her, hat, hei, htt]
  · intro a now resp tok ttl tty hb hep her hat hei htt hct
    simp [Auth.auth, hb, hep, her, hat, hei, htt, hct]

/-- C2 as literally stated is false on the code: with valid auth
configuration, a malformed success response `{"access_token": "T"}`
(no `error` key, no `expires_in`) makes `Auth.auth` raise a `KeyError`
for `expires_in` — a failing exchange — yet the `token` field has
already been overwritten from `None` to `"T"`, so the state is not
field-for-field identical to its pre-call value. -/
theorem C2_counterexample_partial_mutation :
    ((Auth.auth
        (Auth.mk (some "https://auth.example.com") (some "/token") none none none none none none)
        0 (AuthResponse.mk false (some "T") none none none)).2.1
      = Except.error (AuthErr.keyErr "expires_in"))
    ∧ ((Auth.auth
        (Auth.mk (some "https://auth.example.com") (some "/token") none none none none none none)
        0 (AuthResponse.mk false (some "T") none none none)).1.token = some "T")
    ∧ (Auth.mk (some "https://auth.example.com") (some "/token") none none
        none none none none).token = none :=
  ⟨rfl, rfl, rfl⟩

theorem C2_witness :
    (Auth.auth
        (Auth.mk (some "https://auth.example.com") (some "/token") none none none none none none)
        0 (AuthResponse.mk true none none none none)).1
      = Auth.mk (some "https://auth.example.com") (some "/token") none none none none none none :=
  C2_failed_auth_state_preservation.1 _ 0 _ (Or.inr (Or.inr (Or.inl rfl)))

/-! ## C9: configuration errors fail fast -/

/-- C9: `Client.request` with a falsy `base_api` raises the
missing-base-api error, and with a valid `base_api` but empty `endpoint`
raises the missing-endpoint error, in both cases with an empty network
trace (no token refresh, no outbound call) and an unchanged client;
likewise `Auth.auth` raises its configuration errors with the exchange
POST never issued (`false` flag) and the state unchanged. -/
theorem C9_config_error_fail_fast :
    (∀ (c : Client) (method endpoint : String) (headers payload params : Option Dict)
        (now : Int) (resp : AuthResponse),
      strFalsy c.base_api = true →
      Client.request c method endpoint headers payload params now resp
        = (c, [], Except.error ReqErr.missingBaseApi))
    ∧ (∀ (c : Client) (method endpoint : String) (headers payload params : Option Dict)
        (now : Int) (resp : AuthResponse),
      strFalsy c.base_api = false → endpoint = "" →
      Client.request c method endpoint headers payload params now resp
        = (c, [], Except.error ReqErr.missingEndpoint))
    ∧ (∀ (a : Auth) (now : Int) (resp : AuthResponse),
      strFalsy a.base_api = true →
      Auth.auth a now resp = (a, Except.error AuthErr.missingBaseApi, false))
    ∧ (∀ (a : Auth) (now : Int) (resp : AuthResponse),
      strFalsy a.base_api = false → strFalsy a.endpoint = true →
      Auth.auth a now resp = (a, Except.error AuthErr.missingEndpoint, false)) := by
  refine ⟨?_, ?_, ?_, ?_⟩
  · intro c method endpoint headers payload params now resp h
    simp [Client.request, h]
  · intro c method endpoint headers payload params now resp hb he
    subst he
    simp [Client.request, hb, show "".isEmpty = true from rfl]
  · intro a now resp h
    simp [Auth.auth, h]
  · intro a now resp hb hep
    simp [Auth.auth, hb, hep]

theorem C9_witness :
    (Client.request (Client.mk none none) "get" "/v1/ping" none none none 0
        (AuthResponse.mk false none none none none)
      = (Client.mk none none, [], Except.error ReqErr.missingBaseApi))
    ∧ (Client.request (Client.mk (some "https://api.example.com") none) "get" "" none none none 0
        (AuthResponse.mk false none none none none)
      = (Client.mk (some "https://api.example.com") none, [],
         Except.error ReqErr.missingEndpoint))
    ∧ (Auth.auth (Auth.mk none none none none none none none none) 0
        (AuthResponse.mk false none none none none)
      = (Auth.mk none none none none none none none none,
         Except.error AuthErr.missingBaseApi, false))
    ∧ (Auth.auth (Auth.mk (some "https://auth.example.com") none none none none none none none) 0
        (AuthResponse.mk false none none none none)
      = (Auth.mk (some "https://auth.example.com") none none none none none none none,
         Except.error AuthErr.missingEndpoint, false)) :=
  ⟨C9_config_error_fail_fast.1 _ "get" "/v1/ping" none none none 0 _ rfl,
   C9_config_error_fail_fast.2.1 _ "get" "" none none none 0 _ rfl rfl,
   C9_config_error_fail_fast.2.2.1 _ 0 _ rfl,
   C9_config_error_fail_fast.2.2.2 _ 0 _ rfl rfl⟩

/-! ## C8: the fixed retry policy -/

/-- C8: the retry policy bound by `__setup_session` is fixed — 15 total
attempts, exponential backoff factor 0.2 (= 1/5), and the status
force-list contains exactly 429, 500, 502, 503 and 504, so no other
status code is retried. -/
theorem C8_retry_policy_constants :
    ∀ (default_headers : Dict) (proxy : Option String),
      (Client.setup_session default_headers proxy).max_retries.total = 15 ∧
      (Client.setup_session default_headers proxy).max_retries.backoff_factor = 1 / 5 ∧
      ∀ (code : Nat),
        code ∈ (Client.setup_session default_headers proxy).max_retries.status_forcelist ↔
          (code = 429 ∨ code = 500 ∨ code = 502 ∨ code = 503 ∨ code = 504) := by
  intro dh proxy
  refine ⟨rfl, by norm_num [Client.setup_session], ?_⟩
  intro code
  simp [Client.setup_session]

/-! ## C1: unsupported methods -/

/-- C1 (amended): for every method other than `"get"` and `"post"`, with
`base_api` set, a non-empty endpoint, and no attached controller or a
valid token, `Client.request` performs no outbound network call (empty
trace) — but it returns the bare `None` result as a silent success
(`return None` at client.py line 180), not an explicit
unsupported-method signal. -/
theorem C1_unsupported_method_silent_none :
    ∀ (c : Client) (method endpoint : String) (headers payload params : Option Dict)
      (now : Int) (resp : AuthResponse),
      strFalsy c.base_api = false → endpoint.isEmpty = false →
      method ≠ "get" → method ≠ "post" →
      (c.auth = none ∨ ∃ a, c.auth = some a ∧ a.is_token_expired now = false) →
      Client.request c method endpoint headers payload params now resp
        = (c, [], Except.ok ReqResult.noneResult) := by
  intro c method endpoint headers payload params now resp hb hep hget hpost hauth
  rcases hauth with hnone | ⟨a, ha, hexp⟩
  · simp [Client.request, hb, hep, hnone, Client.dispatchCall, hget, hpost]
  · simp [Client.request, hb, hep, ha, hexp, Client.dispatchCall, hget, hpost]

/-- C1 as literally stated is false on the code: `request` with method
`"DELETE"` spelled `"delete"` (the dispatch compares against lowercase
`"post"`/`"get"`) makes no outbound call, but the outcome is the
successful bare `None` of the trailing `return None` — an empty/None
success, not an explicit unsupported-method error. -/
theorem C1_counterexample_delete :
    Client.request (Client.mk (some "https://api.example.com") none) "delete" "/v1/x"
        none none none 0 (AuthResponse.mk false none none none none)
      = (Client.mk (some "https://api.example.com") none, [],
         Except.ok ReqResult.noneResult) := rfl

theorem C1_witness :
    Client.request
        (Client.mk (some "https://api.example.com")
          (some (Auth.mk (some "https://auth.example.com") (some "/token") none none
            (some "tok") (some 100) (some "Bearer") (some "US"))))
        "delete" "/v1/x" none none none 0 (AuthResponse.mk false none none none none)
      = (Client.mk (some "https://api.example.com")
          (some (Auth.mk (some "https://auth.example.com") (some "/token") none none
            (some "tok") (some 100) (some "Bearer") (some "US"))),
         [], Except.ok ReqResult.noneResult) :=
  C1_unsupported_method_silent_none _ "delete" "/v1/x" none none none 0 _
    rfl rfl (by decide) (by decide) (Or.inr ⟨_, rfl, rfl⟩)

/-! ## C3: refresh gating and the outbound header merge -/

/-- C3: with an attached controller and valid client configuration, a
`"get"`/`"post"` request performs zero token exchanges when the token is
not expired (the trace is exactly the one dispatch, whose headers are the
deep right-biased merge of `{"Authorization": get_auth()}` as base with
the caller headers as override), and exactly one token exchange when the
token is expired and the exchange succeeds — the exchange strictly
precedes the dispatch in the trace, and the merged `Authorization` base
uses the freshly refreshed token.  Finally, a caller-supplied
`Authorization` key always wins the merge. -/
theorem C3_auth_gating_and_header_merge :
    ∀ (c : Client) (a : Auth) (method endpoint : String)
      (headers payload params : Option Dict) (now : Int) (resp : AuthResponse),
      c.auth = some a →
      strFalsy c.base_api = false → endpoint.isEmpty = false →
      (method = "get" ∨ method = "post") →
      ((a.is_token_expired now = false →
        Client.request c method endpoint headers payload params now resp
          = (c, [NetAction.dispatch method (pyStr c.base_api ++ endpoint)
                  (deep_merge (some [("Authorization", Val.vStr a.get_auth)]) headers)
                  payload params],
             Except.ok (ReqResult.response method (pyStr c.base_api ++ endpoint)
                  (deep_merge (some [("Authorization", Val.vStr a.get_auth)]) headers)
                  payload params)))
      ∧ (∀ (tok tty ctry : String) (ttl : Int),
          a.is_token_expired now = true →
          strFalsy a.base_api = false → strFalsy a.endpoint = false →
          resp.hasError = false → resp.access_token = some tok →
          resp.expires_in = some ttl → resp.token_type = some tty →
          resp.country = some ctry →
          Client.request c method endpoint headers payload params now resp
            = ({ c with auth := some
                          { a with
                              token := some tok
                              expiry := some (now + ttl)
                              token_type := some tty
                              country := some ctry } },
               [NetAction.tokenExchange,
                NetAction.dispatch method (pyStr c.base_api ++ endpoint)
                  (deep_merge (some [("Authorization", Val.vStr (tty ++ " " ++ tok))]) headers)
                  payload params],
               Except.ok (ReqResult.response method (pyStr c.base_api ++ endpoint)
                  (deep_merge (some [("Authorization", Val.vStr (tty ++ " " ++ tok))]) headers)
                  payload params)))
      ∧ (∀ (hd : Dict) (v : Val) (s : String), headers = some hd →
          (dictKeys hd).Nodup → dictGet hd "Authorization" = some v →
          lookupO (deep_merge (some [("Authorization", Val.vStr s)]) headers) "Authorization"
            = some v)) := by
  intro c a method endpoint headers payload params now resp ha hb hep hm
  refine ⟨?_, ?_, ?_⟩
  · intro hexp
    rcases hm with hm | hm <;> subst hm <;>
      simp [Client.request, hb, hep, ha, hexp, Client.dispatchCall]
  · intro tok tty ctry ttl hexp hab haep her hat hei htt hct
    rcases hm with hm | hm <;> subst hm <;>
      simp [Client.request, hb, hep, ha, hexp, Auth.auth, hab, haep, her, hat, hei, htt,
        hct, Client.dispatchCall, Auth.get_auth, pyStr]
  · intro hd v s hhd hnd hv
    subst hhd
    rw [deep_merge_lookup_some _ hd _ hnd]
    have hbase : lookupO (some [("Authorization", Val.vStr s)]) "Authorization"
        = some (Val.vStr s) := rfl
    rw [hbase, hv]

theorem C3_witness :
    Client.request
        (Client.mk (some "https://api.example.com")
          (some (Auth.mk (some "https://auth.example.com") (some "/token") none none
            none none none none)))
        "get" "/v1/data" none none none 0
        (AuthResponse.mk false (some "tok") (some 3600) (some "Bearer") (some "US"))
      = (Client.mk (some "https://api.example.com")
          (some (Auth.mk (some "https://auth.example.com") (some "/token") none none
            (some "tok") (some 3600) (some "Bearer") (some "US"))),
         [NetAction.tokenExchange,
          NetAction.dispatch "get" "https://api.example.com/v1/data"
            (deep_merge (some [("Authorization", Val.vStr "Bearer tok")]) none) none none],
         Except.ok (ReqResult.response "get" "https://api.example.com/v1/data"
            (deep_merge (some [("Authorization", Val.vStr "Bearer tok")]) none) none none)) :=
  (C3_auth_gating_and_header_merge
      (Client.mk (some "https://api.example.com")
        (some (Auth.mk (some "https://auth.example.com") (some "/token") none none
          none none none none)))
      (Auth.mk (some "https://auth.example.com") (some "/token") none none none none none none)
      "get" "/v1/data" none none none 0
      (AuthResponse.mk false (some "tok") (some 3600) (some "Bearer") (some "US"))
      rfl rfl rfl (Or.inl rfl)).2.1
    "tok" "Bearer" "US" 3600 rfl rfl rfl rfl rfl rfl rfl rfl

/-! ## C5: cipher policy validation -/

/-- C5 (amended): `SSLCiphers.__init__` builds a TLS context for every
integer `security_level` in [0,5] given a valid cipher list (absent, or a
string not containing `"@SECLEVEL"`), raises `ValueError` for every other
integer, raises `ValueError` whenever the supplied cipher string contains
the `"@SECLEVEL"` directive, and raises `TypeError` for a **truthy**
non-string cipher list.  However a *falsy* non-string cipher list (such
as `0` or `[]`) skips the `isinstance` check entirely — it is treated
like an absent list and construction succeeds with the default ciphers.
Every failure outcome (`typeErr`/`valueErr`) carries no context: the
constructor raises before the TLS context is created. -/
theorem C5_cipher_policy_validation :
    (∀ (sl : Int), 0 ≤ sl → sl ≤ 5 →
      sslCiphers_init CipherArg.noneArg sl
        = InitResult.builtContext ("DEFAULT:@SECLEVEL=" ++ toString sl))
    ∧ (∀ (sl : Int) (s : String), 0 ≤ sl → sl ≤ 5 → strContains s "@SECLEVEL" = false →
        sslCiphers_init (CipherArg.strArg s) sl
          = InitResult.builtContext
              ((if s.isEmpty then "DEFAULT" else s) ++ ":@SECLEVEL=" ++ toString sl))
    ∧ (∀ (sl : Int), (sl < 0 ∨ 5 < sl) →
        sslCiphers_init CipherArg.noneArg sl = InitResult.valueErr)
    ∧ (∀ (sl : Int) (s : String), (sl < 0 ∨ 5 < sl) → strContains s "@SECLEVEL" = false →
        sslCiphers_init (CipherArg.strArg s) sl = InitResult.valueErr)
    ∧ (∀ (sl : Int) (s : String), strContains s "@SECLEVEL" = true →
        sslCiphers_init (CipherArg.strArg s) sl = InitResult.valueErr)
    ∧ (∀ (sl : Int), sslCiphers_init (CipherArg.otherArg true) sl = InitResult.typeErr)
    ∧ (∀ (sl : Int), 0 ≤ sl → sl ≤ 5 →
        sslCiphers_init (CipherArg.otherArg false) sl
          = InitResult.builtContext ("DEFAULT:@SECLEVEL=" ++ toString sl)) := by
  refine ⟨?_, ?_, ?_, ?_, ?_, ?_, ?_⟩
  · intro sl h0 h5
    have hr : ¬(sl < 0 ∨ 5 < sl) := by omega
    simp [sslCiphers_init, CipherArg.isTruthy, sslCiphersBuild, hr]
  · intro sl s h0 h5 hcon
    have hr : ¬(sl < 0 ∨ 5 < sl) := by omega
    cases hse : s.isEmpty with
    | true =>
      simp [sslCiphers_init, CipherArg.isTruthy, hse, sslCiphersBuild, hr]
    | false =>
      simp [sslCiphers_init, CipherArg.isTruthy, hse, hcon, sslCiphersBuild, hr]
  · intro sl hr
    simp [sslCiphers_init, CipherArg.isTruthy, sslCiphersBuild, hr]
  · intro sl s hr hcon
    cases hse : s.isEmpty with
    | true => simp [sslCiphers_init, CipherArg.isTruthy, hse, sslCiphersBuild, hr]
    | false => simp [sslCiphers_init, CipherArg.isTruthy, hse, hcon, sslCiphersBuild, hr]
  · intro sl s hcon
    cases hse : s.isEmpty with
    | true =>
      have hs : s = "" := (String.isEmpty_iff s).mp hse
      subst hs
      exact absurd hcon (by decide)
    | false =>
      simp [sslCiphers_init, CipherArg.isTruthy, hse, hcon]
  · intro sl
    simp [sslCiphers_init, CipherArg.isTruthy]
  · intro sl h0 h5
    have hr : ¬(sl < 0 ∨ 5 < sl) := by omega
    simp [sslCiphers_init, CipherArg.isTruthy, sslCiphersBuild, hr]

/-- C5 as literally stated is false on the code: a cipher list that is
provided but is not a string is only rejected when it is truthy.  The
falsy non-string value modelled by `CipherArg.otherArg false` (e.g.
Python `0`) passes `if cipher_list:` unchecked, is replaced by the
default cipher list, and construction **succeeds** — no configuration
error is raised. -/
theorem C5_counterexample_falsy_nonstring :
    sslCiphers_init (CipherArg.otherArg false) 2
      = InitResult.builtContext "DEFAULT:@SECLEVEL=2" := rfl

theorem C5_witness :
    sslCiphers_init (CipherArg.strArg "AES128-SHA") 2
      = InitResult.builtContext
          ((if "AES128-SHA".isEmpty then "DEFAULT" else "AES128-SHA")
            ++ ":@SECLEVEL=" ++ toString (2 : Int)) :=
  C5_cipher_policy_validation.2.1 2 "AES128-SHA" (by decide) (by decide) (by decide)
